import Mathlib

/-!
Shallow embedding of the `clack` audio-ports extension
(`src/extensions/src/audio_ports.rs` and `src/extensions/src/audio_ports/plugin.rs`).

Machine integers (`u32`) are embedded as `Nat`; the claims here never exercise
arithmetic overflow, only bitwise operations, equality with the sentinel, and
verbatim copies. Raw C pointers to nul-terminated strings are embedded as
`Option (List Nat)`: `none` is the null pointer, `some s` is a valid pointer to
a string whose nul-free content bytes are `s`. Caller-owned, possibly
uninitialized record memory is embedded as `Option clap_audio_port_info`, with
`none` standing for uninitialized memory.
-/

/-- From the `clap-sys` C headers: `CLAP_INVALID_ID` is the all-bits-set `u32`. -/
def CLAP_INVALID_ID : Nat := 4294967295

/-- From the `clap-sys` C headers: the fixed capacity of the name field. -/
def CLAP_NAME_SIZE : Nat := 256

/-- From the `clap-sys` C headers: the six rescan flag bits, disjoint bits of a 32-bit word. -/
def CLAP_AUDIO_PORTS_RESCAN_NAMES : Nat := 1

def CLAP_AUDIO_PORTS_RESCAN_FLAGS : Nat := 2

def CLAP_AUDIO_PORTS_RESCAN_CHANNEL_COUNT : Nat := 4

def CLAP_AUDIO_PORTS_RESCAN_PORT_TYPE : Nat := 8

def CLAP_AUDIO_PORTS_RESCAN_IN_PLACE_PAIR : Nat := 16

def CLAP_AUDIO_PORTS_RESCAN_LIST : Nat := 32

/-- From the `clap-sys` C headers: the four audio port flag bits, disjoint bits of a 32-bit word. -/
def CLAP_AUDIO_PORT_IS_MAIN : Nat := 1

def CLAP_AUDIO_PORT_SUPPORTS_64BITS : Nat := 2

def CLAP_AUDIO_PORT_PREFERS_64BITS : Nat := 4

def CLAP_AUDIO_PORT_REQUIRES_COMMON_SAMPLE_SIZE : Nat := 8

/-- Modelled from the spec: `ClapId` (clack-common, not under the given sources) is the
StableId type — an unsigned integer identifier whose reserved all-bits-set value means
absent/invalid. `get` returns the raw integer value. -/
structure ClapId where
  get : Nat
deriving DecidableEq, Repr

/-- Modelled from the spec: `ClapId::from_raw` decodes a raw `u32` as absent (`none`)
exactly when it equals the sentinel all-bits-set value, and as present with the same
integer value otherwise. -/
def ClapId.from_raw (raw : Nat) : Option ClapId :=
  if raw = CLAP_INVALID_ID then none else some ⟨raw⟩

/-- Modelled from the spec: `ClapId::optional_to_raw` encodes the paired id verbatim when
present and the sentinel when absent. -/
def ClapId.optional_to_raw : Option ClapId → Nat
  | none => CLAP_INVALID_ID
  | some id => id.get

/-- `RescanType` (audio_ports.rs, `bitflags!`): a set of rescan flags over a raw
32-bit word. The `bitflags` crate stores the raw word; operations below mirror the
crate's `union`, `intersects` and `bits`. -/
structure RescanType where
  bits : Nat
deriving DecidableEq, Repr

def RescanType.NAMES : RescanType := ⟨CLAP_AUDIO_PORTS_RESCAN_NAMES⟩

def RescanType.FLAGS : RescanType := ⟨CLAP_AUDIO_PORTS_RESCAN_FLAGS⟩

def RescanType.CHANNEL_COUNT : RescanType := ⟨CLAP_AUDIO_PORTS_RESCAN_CHANNEL_COUNT⟩

def RescanType.PORT_TYPE : RescanType := ⟨CLAP_AUDIO_PORTS_RESCAN_PORT_TYPE⟩

def RescanType.IN_PLACE_PAIR : RescanType := ⟨CLAP_AUDIO_PORTS_RESCAN_IN_PLACE_PAIR⟩

def RescanType.LIST : RescanType := ⟨CLAP_AUDIO_PORTS_RESCAN_LIST⟩

/-- `bitflags` crate `union`: bitwise or of the raw words. -/
def RescanType.union (a b : RescanType) : RescanType := ⟨a.bits ||| b.bits⟩

/-- `bitflags` crate `intersects`: true iff the raw words share a set bit. -/
def RescanType.intersects (a b : RescanType) : Bool := a.bits &&& b.bits != 0

/-- `bitflags` crate `from_bits_retain`: wraps a raw word verbatim, keeping unknown bits. -/
def RescanType.from_bits_retain (w : Nat) : RescanType := ⟨w⟩

/-- `RescanType::requires_deactivate` (audio_ports.rs lines 84-101): intersects the set
with the union `FLAGS ∪ CHANNEL_COUNT ∪ PORT_TYPE ∪ PORT_TYPE ∪ IN_PLACE_PAIR ∪ LIST`
(the source unions `PORT_TYPE` twice), exactly as the source writes it. -/
def RescanType.requires_deactivate (s : RescanType) : Bool :=
  let RESTART_REQUIRED : RescanType :=
    ((((RescanType.FLAGS.union RescanType.CHANNEL_COUNT).union
        RescanType.PORT_TYPE).union
        RescanType.PORT_TYPE).union
        RescanType.IN_PLACE_PAIR).union
        RescanType.LIST
  s.intersects RESTART_REQUIRED

/-- `AudioPortFlags` (audio_ports.rs, `bitflags!`): capability bitset over a raw 32-bit word. -/
structure AudioPortFlags where
  bits : Nat
deriving DecidableEq, Repr

def AudioPortFlags.IS_MAIN : AudioPortFlags := ⟨CLAP_AUDIO_PORT_IS_MAIN⟩

def AudioPortFlags.SUPPORTS_64BITS : AudioPortFlags := ⟨CLAP_AUDIO_PORT_SUPPORTS_64BITS⟩

def AudioPortFlags.PREFERS_64BITS : AudioPortFlags := ⟨CLAP_AUDIO_PORT_PREFERS_64BITS⟩

def AudioPortFlags.REQUIRES_COMMON_SAMPLE_SIZE : AudioPortFlags :=
  ⟨CLAP_AUDIO_PORT_REQUIRES_COMMON_SAMPLE_SIZE⟩

/-- `bitflags` crate `all`: union of every flag defined in the `bitflags!` block. -/
def AudioPortFlags.all : AudioPortFlags :=
  ⟨CLAP_AUDIO_PORT_IS_MAIN ||| CLAP_AUDIO_PORT_SUPPORTS_64BITS |||
    CLAP_AUDIO_PORT_PREFERS_64BITS ||| CLAP_AUDIO_PORT_REQUIRES_COMMON_SAMPLE_SIZE⟩

/-- `bitflags` crate `from_bits_truncate`: keeps only the bits of flags defined in the
`bitflags!` block, silently discarding unknown bits. -/
def AudioPortFlags.from_bits_truncate (w : Nat) : AudioPortFlags :=
  ⟨w &&& AudioPortFlags.all.bits⟩

/-- `AudioPortType` (audio_ports.rs line 17): a non-owning reference to a C string;
embedded as the string's nul-free content bytes. -/
structure AudioPortType where
  content : List Nat
deriving DecidableEq, Repr

/-- `AudioPortType::from_raw` (audio_ports.rs lines 42-54): null pointer decodes to
`none`; a valid pointer to an empty string decodes to `none`; any other valid pointer
decodes to `some`, holding the source bytes without copying. -/
def AudioPortType.from_raw : Option (List Nat) → Option AudioPortType
  | none => none
  | some s => if s.isEmpty then none else some ⟨s⟩

/-- `clap_audio_port_info` (clap-sys): the raw C-ABI record. `name` is the fixed-size
byte array (length `CLAP_NAME_SIZE` when fully defined), `port_type` the raw string
pointer. -/
structure clap_audio_port_info where
  id : Nat
  name : List Nat
  flags : Nat
  channel_count : Nat
  port_type : Option (List Nat)
  in_place_pair : Nat
deriving DecidableEq, Repr

/-- Modelled from the spec: `data_from_array_buf` (crate::utils, not under the given
sources) reads the name field as raw bytes up to its fixed capacity, preserved verbatim
with no assumption of NUL-termination. -/
def data_from_array_buf (name : List Nat) : List Nat := name

/-- `AudioPortInfo` (audio_ports.rs lines 151-182): the decoded, safe view of one port's
metadata. -/
structure AudioPortInfo where
  id : ClapId
  name : List Nat
  channel_count : Nat
  flags : AudioPortFlags
  port_type : Option AudioPortType
  in_place_pair : Option ClapId
deriving DecidableEq, Repr

/-- `AudioPortInfo::from_raw` (audio_ports.rs lines 184-201): decoding fails (via `?`)
exactly when `ClapId::from_raw` rejects the raw id; each remaining field is decoded by
its own codec, none of which can fail. -/
def AudioPortInfo.from_raw (raw : clap_audio_port_info) : Option AudioPortInfo :=
  match ClapId.from_raw raw.id with
  | none => none
  | some id =>
    some
      { id := id
        name := data_from_array_buf raw.name
        channel_count := raw.channel_count
        flags := AudioPortFlags.from_bits_truncate raw.flags
        port_type := AudioPortType.from_raw raw.port_type
        in_place_pair := ClapId.from_raw raw.in_place_pair }

/-- Modelled from the spec: `write_to_array_buf` (crate::utils, not under the given
sources) copies source bytes into the fixed-capacity destination, truncating a longer
source at the capacity and zero-filling past a shorter source so every destination byte
is defined. Written as the byte-by-byte copy loop. -/
def write_to_array_buf : Nat → List Nat → List Nat
  | 0, _ => []
  | capacity + 1, [] => 0 :: write_to_array_buf capacity []
  | capacity + 1, b :: rest => b :: write_to_array_buf capacity rest

/-- `AudioPortInfoWriter` (plugin.rs lines 7-10): wraps caller-owned, possibly
uninitialized record memory (`none` = uninitialized) plus the write-occurred flag. -/
structure AudioPortInfoWriter where
  buf : Option clap_audio_port_info
  is_set : Bool
deriving DecidableEq, Repr

/-- `AudioPortInfoWriter::from_raw` (plugin.rs lines 18-23): wraps the given memory,
performing no reads or writes, with `is_set` false. -/
def AudioPortInfoWriter.from_raw (mem : Option clap_audio_port_info) : AudioPortInfoWriter :=
  { buf := mem, is_set := false }

/-- `AudioPortInfoWriter::is_set` (plugin.rs lines 26-28). -/
def AudioPortInfoWriter.is_set? (w : AudioPortInfoWriter) : Bool := w.is_set

/-- `AudioPortInfoWriter::set` (plugin.rs lines 30-58): writes every field of the record
into the backing memory (id verbatim, name through `write_to_array_buf`, raw flag bits,
channel count, the port type's string pointer or null, the paired id or the sentinel),
then flips `is_set` to true. -/
def AudioPortInfoWriter.set (_w : AudioPortInfoWriter) (data : AudioPortInfo) :
    AudioPortInfoWriter :=
  { buf :=
      some
        { id := data.id.get
          name := write_to_array_buf CLAP_NAME_SIZE data.name
          flags := data.flags.bits
          channel_count := data.channel_count
          port_type := data.port_type.map (fun s => s.content)
          in_place_pair := ClapId.optional_to_raw data.in_place_pair }
    is_set := true }

/-- A raw pointer argument: null, or valid, pointing at possibly uninitialized memory. -/
inductive RawPtr (α : Type) where
  | null : RawPtr α
  | valid : Option α → RawPtr α
deriving DecidableEq, Repr

/-- An implementer's `PluginAudioPortsImpl::get` interacts with the writer only through
`set`; its observable behaviour is the sequence of `set` calls it makes, applied in
order. -/
def runImplGet (w : AudioPortInfoWriter) (calls : List AudioPortInfo) : AudioPortInfoWriter :=
  calls.foldl AudioPortInfoWriter.set w

/-- The boundary glue `get` (plugin.rs lines 138-157): a null destination pointer is a
local failure that `PluginWrapper::handle` (clack-plugin, not under the given sources;
modelled from the spec's propagation policy) converts to the ABI `false` return;
otherwise the writer is built over the destination memory, the implementer's callback
runs, and the writer's `is_set` flag is the returned boolean. -/
def get_glue (info : RawPtr clap_audio_port_info) (calls : List AudioPortInfo) : Bool :=
  match info with
  | .null => false
  | .valid mem => (runImplGet (AudioPortInfoWriter.from_raw mem) calls).is_set?

/-- `clap_host_audio_ports` (clap-sys): the host-side function table, each entry an
optional function pointer. The foreign `rescan` is modelled as a transformer of an
abstract host state `σ` so that "no observable effect" is expressible. -/
structure clap_host_audio_ports (σ : Type) where
  is_rescan_flag_supported : Option (Nat → Bool)
  rescan : Option (Nat → σ → σ)

/-- `HostAudioPorts::is_rescan_flag_supported` (plugin.rs lines 161-167): null pointer
yields `false`; otherwise the foreign function is invoked with the flag's raw bits and
its return value forwarded unchanged. -/
def HostAudioPorts.is_rescan_flag_supported? {σ : Type} (tbl : clap_host_audio_ports σ)
    (flag : RescanType) : Bool :=
  match tbl.is_rescan_flag_supported with
  | none => false
  | some supported => supported flag.bits

/-- `HostAudioPorts::rescan` (plugin.rs lines 170-175): null pointer yields a no-op;
otherwise the foreign function is invoked with the flag's raw bits. -/
def HostAudioPorts.rescan? {σ : Type} (tbl : clap_host_audio_ports σ) (flag : RescanType)
    (s : σ) : σ :=
  match tbl.rescan with
  | none => s
  | some rescan => rescan flag.bits s

/-! ## Helper lemmas -/

theorem runImplGet_is_set (w : AudioPortInfoWriter) (calls : List AudioPortInfo) :
    (runImplGet w calls).is_set = (w.is_set || !calls.isEmpty) := by
  induction calls generalizing w with
  | nil => simp [runImplGet]
  | cons c cs ih =>
    have h : runImplGet w (c :: cs) = runImplGet (w.set c) cs := rfl
    rw [h, ih]
    simp [AudioPortInfoWriter.set]

theorem write_to_array_buf_length (c : Nat) (src : List Nat) :
    (write_to_array_buf c src).length = c := by
  induction c generalizing src with
  | zero => rfl
  | succ n ih => cases src <;> simp [write_to_array_buf, ih]

theorem write_to_array_buf_long (c : Nat) (src : List Nat) (h : c ≤ src.length) :
    write_to_array_buf c src = src.take c := by
  induction c generalizing src with
  | zero => simp [write_to_array_buf]
  | succ n ih =>
    cases src with
    | nil => simp at h
    | cons b rest =>
      simp only [write_to_array_buf, List.take_succ_cons, List.cons.injEq, true_and]
      exact ih rest (by simpa using h)

theorem write_to_array_buf_short (c : Nat) (src : List Nat) (h : src.length ≤ c) :
    write_to_array_buf c src = src ++ List.replicate (c - src.length) 0 := by
  induction c generalizing src with
  | zero =>
    cases src with
    | nil => rfl
    | cons b rest => simp at h
  | succ n ih =>
    cases src with
    | nil =>
      simp only [write_to_array_buf, List.nil_append, List.length_nil, Nat.sub_zero]
      rw [List.replicate_succ]
      simpa using ih [] (Nat.zero_le n)
    | cons b rest =>
      have h2 : rest.length ≤ n := by simpa using h
      have h3 : n + 1 - (rest.length + 1) = n - rest.length := by omega
      simp only [write_to_array_buf, List.length_cons, ih rest h2, List.cons_append, h3]

/-! ## Claims -/

/-- C1: a freshly constructed `AudioPortInfoWriter` has `is_set()` false; after one
`set(data)` call `is_set()` is true and the backing buffer's id field equals `data.id`;
a second `set` is not an error and wholesale-overwrites the same buffer with the new
value (last write wins) while `is_set()` stays true. -/
theorem writer_write_once (mem : Option clap_audio_port_info) (d d2 : AudioPortInfo) :
    (AudioPortInfoWriter.from_raw mem).is_set? = false ∧
    ((AudioPortInfoWriter.from_raw mem).set d).is_set? = true ∧
    (∃ rec, ((AudioPortInfoWriter.from_raw mem).set d).buf = some rec ∧
      rec.id = d.id.get) ∧
    ((AudioPortInfoWriter.from_raw mem).set d).set d2 =
      (AudioPortInfoWriter.from_raw mem).set d2 ∧
    (((AudioPortInfoWriter.from_raw mem).set d).set d2).is_set? = true :=
  ⟨rfl, rfl, ⟨_, rfl, rfl⟩, rfl, rfl⟩

/-- C2: the boundary glue for `get` returns false when the implementer's callback never
calls `writer.set` — and does so uniformly in the backing memory, so no read of it can
influence the result; a null destination pointer also yields the ABI failure return
`false` instead of a fault; the glue returns true exactly when `set` was called at least
once. -/
theorem get_glue_unset_false (mem : Option clap_audio_port_info)
    (calls : List AudioPortInfo) :
    get_glue (.valid mem) [] = false ∧
    get_glue .null calls = false ∧
    (get_glue (.valid mem) calls = true ↔ calls ≠ []) := by
  refine ⟨rfl, rfl, ?_⟩
  show (runImplGet (AudioPortInfoWriter.from_raw mem) calls).is_set? = true ↔ calls ≠ []
  show (runImplGet (AudioPortInfoWriter.from_raw mem) calls).is_set = true ↔ calls ≠ []
  rw [runImplGet_is_set]
  simp [AudioPortInfoWriter.from_raw, List.isEmpty_iff]

/-- C2 witness. -/
theorem get_glue_unset_false_witness :
    get_glue (.valid none) [] = false ∧
    get_glue .null [] = false ∧
    get_glue (.valid none)
      [{ id := ⟨0⟩, name := [], channel_count := 2, flags := ⟨0⟩, port_type := none,
         in_place_pair := none }] = true :=
  ⟨(get_glue_unset_false none []).1, (get_glue_unset_false none []).2.1,
    (get_glue_unset_false none
      [{ id := ⟨0⟩, name := [], channel_count := 2, flags := ⟨0⟩, port_type := none,
         in_place_pair := none }]).2.2.mpr (by simp)⟩

/-- Builds a `RescanType` from the six defined flags, one Boolean selector per flag. -/
def RescanType.ofSelectors (names flags channel_count port_type in_place_pair list : Bool) :
    RescanType :=
  (if names then RescanType.NAMES else ⟨0⟩).union
    ((if flags then RescanType.FLAGS else ⟨0⟩).union
      ((if channel_count then RescanType.CHANNEL_COUNT else ⟨0⟩).union
        ((if port_type then RescanType.PORT_TYPE else ⟨0⟩).union
          ((if in_place_pair then RescanType.IN_PLACE_PAIR else ⟨0⟩).union
            (if list then RescanType.LIST else ⟨0⟩)))))

/-- C3: over all 64 combinations of the six defined flags, `requires_deactivate` is
total and returns true iff the set intersects any flag other than `NAMES`; in
particular it is false on the empty set and on `{NAMES}`, true on `{NAMES, FLAGS}` and
on `{LIST}`. -/
theorem requires_deactivate_table
    (names flags channel_count port_type in_place_pair list : Bool) :
    (RescanType.ofSelectors names flags channel_count port_type in_place_pair
        list).requires_deactivate =
      (flags || channel_count || port_type || in_place_pair || list) ∧
    RescanType.requires_deactivate ⟨0⟩ = false ∧
    RescanType.NAMES.requires_deactivate = false ∧
    (RescanType.NAMES.union RescanType.FLAGS).requires_deactivate = true ∧
    RescanType.LIST.requires_deactivate = true := by
  revert names flags channel_count port_type in_place_pair list
  decide

theorem requires_deactivate_eq (s : RescanType) :
    s.requires_deactivate = (s.bits &&& 62 != 0) := by
  have h : ((((RescanType.FLAGS.union RescanType.CHANNEL_COUNT).union
      RescanType.PORT_TYPE).union RescanType.PORT_TYPE).union
      RescanType.IN_PLACE_PAIR).union RescanType.LIST = ⟨62⟩ := by decide
  simp [RescanType.requires_deactivate, RescanType.intersects, h]

/-- C10: for a `RescanType` whose set bits all lie outside the six defined flags
(constructible through `from_bits_retain`), `requires_deactivate` returns false, since
it only tests intersection with the union of the five defined non-`NAMES` flags. -/
theorem requires_deactivate_unknown_bits (w : Nat)
    (h : (RescanType.from_bits_retain w).intersects
      (RescanType.NAMES.union (RescanType.FLAGS.union (RescanType.CHANNEL_COUNT.union
        (RescanType.PORT_TYPE.union (RescanType.IN_PLACE_PAIR.union
          RescanType.LIST))))) = false) :
    (RescanType.from_bits_retain w).requires_deactivate = false := by
  have hx : RescanType.NAMES.union (RescanType.FLAGS.union (RescanType.CHANNEL_COUNT.union
      (RescanType.PORT_TYPE.union (RescanType.IN_PLACE_PAIR.union
        RescanType.LIST)))) = ⟨63⟩ := by decide
  rw [hx] at h
  simp only [RescanType.intersects, RescanType.from_bits_retain, bne_eq_false_iff_eq] at h
  have h62 : w &&& 62 = 0 := by
    have h1 : (63 : Nat) &&& 62 = 62 := by decide
    calc w &&& 62 = w &&& (63 &&& 62) := by rw [h1]
      _ = w &&& 63 &&& 62 := (Nat.and_assoc w 63 62).symm
      _ = 0 &&& 62 := by rw [h]
      _ = 0 := Nat.zero_and 62
  rw [requires_deactivate_eq]
  simp [RescanType.from_bits_retain, h62]

/-- C10 witness. -/
theorem requires_deactivate_unknown_bits_witness :
    (RescanType.from_bits_retain 64).intersects
      (RescanType.NAMES.union (RescanType.FLAGS.union (RescanType.CHANNEL_COUNT.union
        (RescanType.PORT_TYPE.union (RescanType.IN_PLACE_PAIR.union
          RescanType.LIST))))) = false ∧
    (RescanType.from_bits_retain 64).requires_deactivate = false :=
  ⟨by decide, requires_deactivate_unknown_bits 64 (by decide)⟩

/-- C4: `AudioPortInfo::from_raw` returns `none` (absent, not an exception) iff the raw
id field equals the sentinel all-bits-set value; for every other raw id the decode
succeeds and the decoded id equals the raw integer value unchanged. -/
theorem from_raw_sentinel_id (raw : clap_audio_port_info) :
    (AudioPortInfo.from_raw raw = none ↔ raw.id = CLAP_INVALID_ID) ∧
    (raw.id ≠ CLAP_INVALID_ID →
      ∃ info, AudioPortInfo.from_raw raw = some info ∧ info.id.get = raw.id) := by
  unfold AudioPortInfo.from_raw ClapId.from_raw
  by_cases h : raw.id = CLAP_INVALID_ID
  · simp [h]
  · simp only [if_neg h]
    exact ⟨by simp [h], fun _ => ⟨_, rfl, rfl⟩⟩

/-- C4 witness. -/
theorem from_raw_sentinel_id_witness :
    (7 : Nat) ≠ CLAP_INVALID_ID ∧
    ∃ info, AudioPortInfo.from_raw
      { id := 7, name := [], flags := 0, channel_count := 2, port_type := none,
        in_place_pair := 4294967295 } = some info ∧ info.id.get = 7 :=
  ⟨by decide, (from_raw_sentinel_id
    { id := 7, name := [], flags := 0, channel_count := 2, port_type := none,
      in_place_pair := 4294967295 }).2 (by decide)⟩

/-- C9: whenever the raw id is not the sentinel, the whole decode succeeds — a sentinel
`in_place_pair` never makes it fail — and the decoded `in_place_pair` is `none` exactly
when the raw field equals the sentinel, carrying the same raw value otherwise. -/
theorem from_raw_in_place_pair (raw : clap_audio_port_info)
    (h : raw.id ≠ CLAP_INVALID_ID) :
    ∃ info, AudioPortInfo.from_raw raw = some info ∧
      (info.in_place_pair = none ↔ raw.in_place_pair = CLAP_INVALID_ID) ∧
      ∀ p, info.in_place_pair = some p → p.get = raw.in_place_pair := by
  unfold AudioPortInfo.from_raw ClapId.from_raw
  simp only [if_neg h]
  refine ⟨_, rfl, ?_, ?_⟩
  · by_cases hp : raw.in_place_pair = CLAP_INVALID_ID <;> simp [hp]
  · intro p hp
    by_cases hq : raw.in_place_pair = CLAP_INVALID_ID
    · simp [hq] at hp
    · simp only [if_neg hq, Option.some.injEq] at hp
      rw [← hp]

/-- C9 witness. -/
theorem from_raw_in_place_pair_witness :
    ∃ info, AudioPortInfo.from_raw
      { id := 3, name := [], flags := 0, channel_count := 1, port_type := none,
        in_place_pair := 4294967295 } = some info ∧ info.in_place_pair = none := by
  obtain ⟨info, h1, h2, _⟩ := from_raw_in_place_pair
    { id := 3, name := [], flags := 0, channel_count := 1, port_type := none,
      in_place_pair := 4294967295 } (by decide)
  exact ⟨info, h1, h2.mpr (by decide)⟩

/-- C7: encoding the name through `set` never overflows and leaves no destination byte
undefined: a source longer than the capacity produces exactly the capacity's worth of
bytes, equal to the first such bytes of the source; a shorter source is zero-filled to
the capacity. -/
theorem set_name_truncation (w : AudioPortInfoWriter) (d : AudioPortInfo) :
    ∃ rec, (w.set d).buf = some rec ∧
      rec.name.length = CLAP_NAME_SIZE ∧
      (CLAP_NAME_SIZE ≤ d.name.length → rec.name = d.name.take CLAP_NAME_SIZE) ∧
      (d.name.length ≤ CLAP_NAME_SIZE →
        rec.name = d.name ++ List.replicate (CLAP_NAME_SIZE - d.name.length) 0) :=
  ⟨_, rfl, write_to_array_buf_length _ _,
    fun h => write_to_array_buf_long _ _ h,
    fun h => write_to_array_buf_short _ _ h⟩

set_option maxRecDepth 4000 in
/-- C7 witness. -/
theorem set_name_truncation_witness :
    ∃ rec,
      ((AudioPortInfoWriter.from_raw none).set
        { id := ⟨1⟩, name := List.replicate 300 7, channel_count := 2, flags := ⟨0⟩,
          port_type := none, in_place_pair := none }).buf = some rec ∧
      rec.name = (List.replicate 300 7).take CLAP_NAME_SIZE := by
  obtain ⟨rec, h1, _, h3, _⟩ := set_name_truncation (AudioPortInfoWriter.from_raw none)
    { id := ⟨1⟩, name := List.replicate 300 7, channel_count := 2, flags := ⟨0⟩,
      port_type := none, in_place_pair := none }
  exact ⟨rec, h1, h3 (by simp [CLAP_NAME_SIZE])⟩

/-- C8: decoding the capability bitset silently discards unknown bits — the decoded set
equals the intersection of the raw word with the defined flags — and no flags word ever
makes the record decode fail. -/
theorem flags_unknown_bits_truncated (v : Nat) (raw : clap_audio_port_info) :
    (AudioPortFlags.from_bits_truncate v).bits = v &&& AudioPortFlags.all.bits ∧
    (raw.id ≠ CLAP_INVALID_ID →
      ∃ info, AudioPortInfo.from_raw raw = some info ∧
        info.flags = AudioPortFlags.from_bits_truncate raw.flags ∧
        info.flags.bits = raw.flags &&& AudioPortFlags.all.bits) := by
  refine ⟨rfl, fun h => ?_⟩
  unfold AudioPortInfo.from_raw ClapId.from_raw
  simp only [if_neg h]
  exact ⟨_, rfl, rfl, rfl⟩

/-- C8 witness. -/
theorem flags_unknown_bits_truncated_witness :
    ∃ info, AudioPortInfo.from_raw
      { id := 0, name := [], flags := 65535, channel_count := 2, port_type := none,
        in_place_pair := 4294967295 } = some info ∧ info.flags.bits = 15 := by
  obtain ⟨info, h1, _, h3⟩ := (flags_unknown_bits_truncated 65535
    { id := 0, name := [], flags := 65535, channel_count := 2, port_type := none,
      in_place_pair := 4294967295 }).2 (by decide)
  refine ⟨info, h1, ?_⟩
  rw [h3]
  decide

/-- C5: `AudioPortType::from_raw` yields `none` on a null pointer and on a pointer to an
empty string, and `some` holding the source bytes for any other valid pointer; `set`
writes the contained string's pointer when present and a null pointer when absent, so
encoding then decoding round-trips a nonempty port type and `none` decodes back to
`none`. -/
theorem port_type_roundtrip (s : List Nat) (w : AudioPortInfoWriter) (d : AudioPortInfo) :
    AudioPortType.from_raw none = none ∧
    AudioPortType.from_raw (some []) = none ∧
    (s ≠ [] → AudioPortType.from_raw (some s) = some ⟨s⟩) ∧
    ∃ rec, (w.set d).buf = some rec ∧
      rec.port_type = d.port_type.map (fun t => t.content) ∧
      (d.port_type = none → AudioPortType.from_raw rec.port_type = none) ∧
      ∀ t, d.port_type = some t → t.content ≠ [] →
        AudioPortType.from_raw rec.port_type = some t := by
  refine ⟨rfl, rfl, fun hs => ?_, _, rfl, rfl, fun hn => ?_, fun t ht hne => ?_⟩
  · simp [AudioPortType.from_raw, List.isEmpty_iff, hs]
  · simp [AudioPortInfoWriter.set, hn, AudioPortType.from_raw]
  · simp [AudioPortInfoWriter.set, ht, AudioPortType.from_raw, List.isEmpty_iff, hne]

/-- C5 witness. -/
theorem port_type_roundtrip_witness :
    AudioPortType.from_raw (some [115, 116, 101, 114, 101, 111]) =
      some ⟨[115, 116, 101, 114, 101, 111]⟩ ∧
    (∃ rec, ((AudioPortInfoWriter.from_raw none).set
        { id := ⟨1⟩, name := [], channel_count := 2, flags := ⟨0⟩,
          port_type := some ⟨[115, 116, 101, 114, 101, 111]⟩,
          in_place_pair := none }).buf = some rec ∧
      AudioPortType.from_raw rec.port_type = some ⟨[115, 116, 101, 114, 101, 111]⟩) ∧
    (∃ rec, ((AudioPortInfoWriter.from_raw none).set
        { id := ⟨1⟩, name := [], channel_count := 2, flags := ⟨0⟩,
          port_type := none, in_place_pair := none }).buf = some rec ∧
      AudioPortType.from_raw rec.port_type = none) := by
  refine ⟨?_, ?_, ?_⟩
  · exact (port_type_roundtrip [115, 116, 101, 114, 101, 111]
      (AudioPortInfoWriter.from_raw none)
      { id := ⟨1⟩, name := [], channel_count := 2, flags := ⟨0⟩,
        port_type := some ⟨[115, 116, 101, 114, 101, 111]⟩,
        in_place_pair := none }).2.2.1 (by decide)
  · obtain ⟨rec, h1, _, _, h4⟩ := (port_type_roundtrip [115, 116, 101, 114, 101, 111]
      (AudioPortInfoWriter.from_raw none)
      { id := ⟨1⟩, name := [], channel_count := 2, flags := ⟨0⟩,
        port_type := some ⟨[115, 116, 101, 114, 101, 111]⟩,
        in_place_pair := none }).2.2.2
    exact ⟨rec, h1, h4 ⟨[115, 116, 101, 114, 101, 111]⟩ rfl (by decide)⟩
  · obtain ⟨rec, h1, _, h3, _⟩ := (port_type_roundtrip [115, 116, 101, 114, 101, 111]
      (AudioPortInfoWriter.from_raw none)
      { id := ⟨1⟩, name := [], channel_count := 2, flags := ⟨0⟩,
        port_type := none, in_place_pair := none }).2.2.2
    exact ⟨rec, h1, h3 rfl⟩

/-- C6: each host-call helper is null-checked — with a null `rescan` pointer the helper
leaves the host state untouched, with a null `is_rescan_flag_supported` pointer it
returns false for every flag; when a pointer is present the helper invokes it with the
flag's raw bits and forwards its literal return value unchanged. -/
theorem host_helpers_null_checked {σ : Type} (tbl : clap_host_audio_ports σ)
    (flag : RescanType) (s : σ) :
    (tbl.rescan = none → HostAudioPorts.rescan? tbl flag s = s) ∧
    (tbl.is_rescan_flag_supported = none →
      HostAudioPorts.is_rescan_flag_supported? tbl flag = false) ∧
    (∀ f, tbl.is_rescan_flag_supported = some f →
      HostAudioPorts.is_rescan_flag_supported? tbl flag = f flag.bits) ∧
    (∀ g, tbl.rescan = some g → HostAudioPorts.rescan? tbl flag s = g flag.bits s) := by
  refine ⟨fun h => ?_, fun h => ?_, fun f hf => ?_, fun g hg => ?_⟩
  · unfold HostAudioPorts.rescan?
    rw [h]
  · unfold HostAudioPorts.is_rescan_flag_supported?
    rw [h]
  · unfold HostAudioPorts.is_rescan_flag_supported?
    rw [hf]
  · unfold HostAudioPorts.rescan?
    rw [hg]

/-- C6 witness. -/
theorem host_helpers_null_checked_witness :
    HostAudioPorts.rescan? (⟨none, none⟩ : clap_host_audio_ports Nat)
      RescanType.LIST 5 = 5 ∧
    HostAudioPorts.is_rescan_flag_supported? (⟨none, none⟩ : clap_host_audio_ports Nat)
      RescanType.LIST = false ∧
    HostAudioPorts.is_rescan_flag_supported?
      (⟨some (fun b => b == 32), none⟩ : clap_host_audio_ports Nat)
      RescanType.LIST = true ∧
    HostAudioPorts.rescan? (⟨none, some (fun b t => t + b)⟩ : clap_host_audio_ports Nat)
      RescanType.LIST 5 = 37 := by
  refine ⟨?_, ?_, ?_, ?_⟩
  · exact (host_helpers_null_checked (⟨none, none⟩ : clap_host_audio_ports Nat)
      RescanType.LIST 5).1 rfl
  · exact (host_helpers_null_checked (⟨none, none⟩ : clap_host_audio_ports Nat)
      RescanType.LIST 5).2.1 rfl
  · rw [(host_helpers_null_checked
      (⟨some (fun b => b == 32), none⟩ : clap_host_audio_ports Nat)
      RescanType.LIST 5).2.2.1 (fun b => b == 32) rfl]
    decide
  · rw [(host_helpers_null_checked
      (⟨none, some (fun b t => t + b)⟩ : clap_host_audio_ports Nat)
      RescanType.LIST 5).2.2.2 (fun b t => t + b) rfl]
    decide
